import Mathlib

/-!
Verification of the data-source gateway backend (FastAPI application).

This file gives a shallow embedding in Lean of the pure / state-passing
content of the backend's core modules:

  * `app/utils/database_connector.py` — the `DatabaseConnector` class
    (connect / close state machine, `normalize_column_name`, `normalize_type`);
  * `app/routes/queries.py` — the SQL-safety helpers (`is_select_only`,
    `contains_forbidden`, `enforce_limit`, `extract_tables`,
    `allowed_tables_check`), the result sanitizers (`clean_json`,
    `clean_rows`) and the live `/queries/execute` route flow;
  * `app/routes/auth.py` — the `forgot_password` endpoint.

Python strings are modelled as Lean `String` (a list of characters); the
ASCII fragments of `str.strip`, `str.lower`, `str.isdigit` are modelled
explicitly (all strings manipulated by the code under verification are
ASCII identifiers / SQL text).  Regular expressions used by the source are
hand-compiled to character-list scanners with the same semantics on the
pattern actually used.
-/

/-! ## Character helpers (ASCII models of the Python predicates) -/

/-- ASCII model of Python `str.lower` on a single character (code points
65–90 are the letters `A`–`Z`; adding 32 gives `a`–`z`). -/
def pyToLower (c : Char) : Char :=
  if 65 ≤ c.toNat ∧ c.toNat ≤ 90 then Char.ofNat (c.toNat + 32) else c

/-- Python `str.isdigit` restricted to ASCII (`0`–`9`). -/
def pyIsDigit (c : Char) : Bool :=
  48 ≤ c.toNat && c.toNat ≤ 57

/-- The ASCII whitespace characters stripped by Python `str.strip()`:
space, tab, newline, carriage return, vertical tab, form feed. -/
def pyIsSpace (c : Char) : Bool :=
  c.toNat == 32 || c.toNat == 9 || c.toNat == 10 || c.toNat == 13
    || c.toNat == 11 || c.toNat == 12

/-- A regex word character: the class `[A-Za-z0-9_]`. -/
def isWordChar (c : Char) : Bool :=
  (97 ≤ c.toNat && c.toNat ≤ 122) || (65 ≤ c.toNat && c.toNat ≤ 90)
    || (48 ≤ c.toNat && c.toNat ≤ 57) || c.toNat == 95

/-- The class `[a-z0-9_]` (lower-case word characters). -/
def isLowerWordChar (c : Char) : Bool :=
  (97 ≤ c.toNat && c.toNat ≤ 122) || (48 ≤ c.toNat && c.toNat ≤ 57) || c.toNat == 95

/-! ## List-of-characters helpers -/

/-- Python `str.strip()` (ASCII whitespace): drop whitespace from both ends. -/
def stripList (l : List Char) : List Char :=
  ((l.dropWhile pyIsSpace).reverse.dropWhile pyIsSpace).reverse

/-- Python `str.rstrip()`: drop trailing whitespace. -/
def rstripList (l : List Char) : List Char :=
  (l.reverse.dropWhile pyIsSpace).reverse

/-- `re.sub(r"[^a-zA-Z0-9_]", "_", ·)`: every non-word character becomes `_`. -/
def subNonWord (l : List Char) : List Char :=
  l.map (fun c => if isWordChar c then c else '_')

/-- Python substring test `pat in s` (on character lists). -/
def containsSub (pat : List Char) : List Char → Bool
  | [] => pat.isEmpty
  | c :: rest => pat.isPrefixOf (c :: rest) || containsSub pat rest

/-- Does `pat` match case-insensitively at the head of the list, with a
word boundary right after the match (end of string or a non-word char)?
This is the `pat\b` part of the regex `\bpat\b` for a `pat` made of word
characters. -/
def matchWordCI : List Char → List Char → Bool
  | [], [] => true
  | [], c :: _ => !isWordChar c
  | _ :: _, [] => false
  | p :: ps, c :: cs => (pyToLower c == pyToLower p) && matchWordCI ps cs

/-- Scanner for `re.search(r"\bpat\b", s, re.IGNORECASE)`: `prev` is the
character just before the current position (`none` at the start of the
string) and supplies the left word boundary. -/
def findWordCIAux (pat : List Char) : Option Char → List Char → Bool
  | _, [] => false
  | prev, c :: cs =>
      ((match prev with
        | none => true
        | some q => !isWordChar q) && matchWordCI pat (c :: cs))
      || findWordCIAux pat (some c) cs

/-- `re.search(r"\bpat\b", s, re.IGNORECASE) is not None`, for a pattern
consisting of word characters. -/
def containsWordCI (pat s : String) : Bool :=
  findWordCIAux pat.data none s.data

/-- Python `str.replace(pat, rep)` (all non-overlapping occurrences, left
to right).  Fueled recursion; `fuel ≥ length of the input` is always
enough since each step consumes at least one input character. -/
def replaceAllFuel (pat rep : List Char) : Nat → List Char → List Char
  | 0, l => l
  | _ + 1, [] => []
  | fuel + 1, c :: cs =>
      if pat ≠ [] ∧ pat.isPrefixOf (c :: cs) then
        rep ++ replaceAllFuel pat rep fuel ((c :: cs).drop pat.length)
      else
        c :: replaceAllFuel pat rep fuel cs

/-- Python `s.replace(pat, rep)` on `String`. -/
def pyReplace (s pat rep : String) : String :=
  ⟨replaceAllFuel pat.data rep.data s.data.length s.data⟩

/-! ## SchemaNormalizer (`DatabaseConnector.normalize_column_name` /
`normalize_type`, `app/utils/database_connector.py` lines 153–171) -/

/-- `DatabaseConnector.normalize_column_name`:

    safe = re.sub(r"[^a-zA-Z0-9_]", "_", str(name).strip())
    if safe[0].isdigit():
        safe = f"col_{safe}"
    return safe.lower()

The subscript `safe[0]` raises `IndexError` when `safe` is empty (exactly
when the stripped name is empty); the `none` result models that raised
exception. -/
def normalize_column_name (name : String) : Option String :=
  match subNonWord (stripList name.data) with
  | [] => none
  | c :: cs =>
      some ⟨(if pyIsDigit c then "col_".data ++ (c :: cs) else c :: cs).map pyToLower⟩

/-- The spec-side pattern `^[a-z0-9_]+$`: nonempty and all characters in
`[a-z0-9_]`. -/
def matchesColPattern (s : String) : Bool :=
  !s.data.isEmpty && s.data.all isLowerWordChar

/-- `DatabaseConnector.normalize_type`: ordered case-insensitive substring
matching of the native type string. -/
def normalize_type (dtype : String) : String :=
  let d := dtype.data.map pyToLower
  if containsSub "int".data d then "INTEGER"
  else if containsSub "float".data d || containsSub "double".data d
      || containsSub "numeric".data d || containsSub "real".data d then "FLOAT"
  else if containsSub "date".data d || containsSub "time".data d then "DATE"
  else if containsSub "bool".data d then "BOOLEAN"
  else "TEXT"

/-! ## SQL safety helpers (`app/routes/queries.py` lines 36–66)

These are the helpers defined next to the `/queries/execute` route:
`FORBIDDEN_PATTERNS` (word-bounded write/DDL keywords plus `;`, `--`, `/*`),
`is_select_only`, `contains_forbidden`, `enforce_limit`, `extract_tables`
and `allowed_tables_check`. -/

/-- Python `s.lower()` on a whole string (ASCII model). -/
def pyLowerStr (s : String) : String :=
  ⟨s.data.map pyToLower⟩

/-- `is_select_only` (queries.py line 41):
`bool(sql and sql.strip().lower().startswith("select"))`. -/
def is_select_only (sql : String) : Bool :=
  !sql.data.isEmpty && "select".data.isPrefixOf ((stripList sql.data).map pyToLower)

/-- The keyword part of `FORBIDDEN_PATTERNS` (queries.py lines 36–39); each
is searched as the regex `\bkw\b`. -/
def forbiddenKeywords : List String :=
  ["insert", "update", "delete", "drop", "alter", "truncate", "create", "grant", "revoke"]

/-- `contains_forbidden` (queries.py line 44): an empty query counts as
forbidden; otherwise search the lowered text for any word-bounded
write/DDL keyword, a `;`, a `--` or a `/*`. -/
def contains_forbidden (sql : String) : Bool :=
  if sql.data.isEmpty then true
  else
    let low := sql.data.map pyToLower
    forbiddenKeywords.any (fun kw => findWordCIAux kw.data none low)
      || containsSub ";".data low || containsSub "--".data low || containsSub "/*".data low

/-- `enforce_limit` (queries.py line 50): keep the query if it already has
a `\blimit\b` token (case-insensitive), else append ` LIMIT <limit>` to the
right-stripped text. -/
def enforce_limit (sql : String) (limit : Nat) : String :=
  if containsWordCI "limit" sql then sql
  else ⟨rstripList sql.data ++ (" LIMIT " ++ toString limit).data⟩

/-- The capture class `[a-z0-9_]` of the table-name regex (the input is
lowered before matching). -/
def isTblChar (c : Char) : Bool :=
  isLowerWordChar c

/-- After a matched `from`/`join` keyword: match `\s+[`"]?([a-z0-9_]+)[`"]?`.
Returns the capture, the last character consumed by the whole match (for
the word-boundary state of the continuing scan) and the rest of the input. -/
def matchTableRef (l : List Char) : Option (List Char × Char × List Char) :=
  if (l.takeWhile pyIsSpace).isEmpty then none
  else
    let r2 := l.dropWhile pyIsSpace
    let r3 := match r2 with
      | c :: cs => if c == '`' || c == '"' then cs else r2
      | [] => r2
    let cap := r3.takeWhile isTblChar
    if cap.isEmpty then none
    else
      match r3.drop cap.length with
      | c :: cs =>
          if c == '`' || c == '"' then some (cap, c, cs)
          else some (cap, cap.getLastD '_', c :: cs)
      | [] => some (cap, cap.getLastD '_', [])

/-- Scanner for `re.findall(r"\bkw\s+[`\"]?([a-z0-9_]+)[`\"]?", s)` on the
already-lowered text: at each position with a left word boundary try the
keyword and the table reference; on success record the capture and resume
after the match (non-overlapping, like `findall`), else advance one
character.  Fueled recursion; fuel `≥ length of the input` is enough since
every step consumes at least one character. -/
def scanKw (kw : List Char) : Nat → Option Char → List Char → List (List Char)
  | 0, _, _ => []
  | _ + 1, _, [] => []
  | fuel + 1, prev, c :: cs =>
      let boundary := match prev with
        | none => true
        | some q => !isWordChar q
      if boundary && kw.isPrefixOf (c :: cs) then
        match matchTableRef ((c :: cs).drop kw.length) with
        | some (cap, lastc, rest) => cap :: scanKw kw fuel (some lastc) rest
        | none => scanKw kw fuel (some c) cs
      else scanKw kw fuel (some c) cs

/-- `extract_tables` (queries.py line 55): table names after `FROM` / `JOIN`
in the lowered query, deduplicated (`list(set(...))` — the Python set fixes
membership but not order; we keep a canonical order, which is irrelevant to
every use, all of which are membership tests). -/
def extract_tables (sql : String) : List String :=
  if sql.data.isEmpty then []
  else
    let s := sql.data.map pyToLower
    ((scanKw "from".data s.length none s ++ scanKw "join".data s.length none s).map
      (fun l => (⟨l⟩ : String))).dedup

/-- `allowed_tables_check` (queries.py line 63): every table referenced by
the query must be in the allow-list (case-insensitively); an empty set of
found tables passes vacuously (`all` of an empty list). -/
def allowed_tables_check (sql : String) (allowed_tables : List String) : Bool :=
  (extract_tables sql).all
    (fun f => (allowed_tables.map pyLowerStr).contains (pyLowerStr f))

/-! ## Result sanitizers (`clean_json`, queries.py line 227, and
`clean_rows`, queries.py line 135) -/

/-- The classification of a Python float that `clean_json` / `clean_rows`
branch on: `obj != obj` (NaN) and `obj in (float("inf"), float("-inf"))`.
A finite float carries its (rational) value. -/
inductive PyFloat where
  | nan | inf | neginf
  | finite (q : ℚ)
deriving DecidableEq, Repr

/-- A Python value as handled by the sanitizers: scalars, floats, lists
and string-keyed dicts, arbitrarily nested. -/
inductive PyVal where
  | none
  | bool (b : Bool)
  | int (n : Int)
  | str (s : String)
  | float (f : PyFloat)
  | list (l : List PyVal)
  | dict (d : List (String × PyVal))
deriving Repr

/-- `math.isnan(v) or math.isinf(v)` / the NaN-or-infinity test of
`clean_json`. -/
def pyFloatNonFinite : PyFloat → Bool
  | .nan => true
  | .inf => true
  | .neginf => true
  | .finite _ => false

mutual
/-- `clean_json` (queries.py lines 227–236): recursively walk dicts and
lists; replace NaN and ±infinity floats by `None`; keep everything else. -/
def clean_json : PyVal → PyVal
  | .dict d => .dict (cleanDict d)
  | .list l => .list (cleanList l)
  | .float f => if pyFloatNonFinite f then .none else .float f
  | .none => .none
  | .bool b => .bool b
  | .int n => .int n
  | .str s => .str s

/-- `clean_json` mapped over the elements of a list value. -/
def cleanList : List PyVal → List PyVal
  | [] => []
  | v :: vs => clean_json v :: cleanList vs

/-- `clean_json` mapped over the values of a dict. -/
def cleanDict : List (String × PyVal) → List (String × PyVal)
  | [] => []
  | (k, v) :: rest => (k, clean_json v) :: cleanDict rest
end

/-- The inner `clean_val` of `clean_rows` (queries.py line 136): only
top-level float values are replaced, nothing is recursed into. -/
def clean_val : PyVal → PyVal
  | .float f => if pyFloatNonFinite f then .none else .float f
  | v => v

/-- `clean_rows` (queries.py lines 135–146): clean the top-level values of
every dict row; leave non-dict rows untouched. -/
def clean_rows (rows : List PyVal) : List PyVal :=
  rows.map fun r =>
    match r with
    | .dict d => .dict (d.map fun (k, v) => (k, clean_val v))
    | r => r

/-! ## The live `/queries/execute` flow (queries.py lines 241–355)

After resolving the connection and fetching the data resource, the route
parses the external model's structured answer and — in the code as it
stands — passes `ai_response["sql_query"]` directly to
`connector.execute_query` whenever it is truthy.  The read-only validation
block (`is_select_only` / `contains_forbidden` / `allowed_tables_check` /
`enforce_limit`, lines 279–306) is commented out in the source, so no
validation sits between the model's output and execution. -/

/-- The structured answer of the external model
(`{answer, suggested_chart, sql_query}`); `sql_query` is `none` when the
key is absent. -/
structure AiResponse where
  answer : String
  suggested_chart : String
  sql_query : Option String

/-- The query texts the live route hands to `connector.execute_query`
for one request (queries.py lines 313–316): the model's `sql_query`
verbatim whenever it is truthy (present and non-empty), else nothing. -/
def routeExecutedQueries (ai : AiResponse) : List String :=
  match ai.sql_query with
  | none => []
  | some q => if q = "" then [] else [q]

/-! ## The connector state machine
(`DatabaseConnector.connect` / `close`, database_connector.py lines 23–111
and 317–324)

The backend drivers (`pandas.read_excel`, `mysql.connector.connect`,
`MongoClient`) are external; we model them through a `World` (which files
exist and whether each server accepts a connection) and record the side
effects that the claims are about as an event trace: file reads and
backend handles opened / closed.  Fresh handle identities are supplied by
a counter threaded through `connect`. -/

/-- A loaded spreadsheet: column labels and rows.  `pandas.DataFrame.empty`
is true iff some axis has length zero. -/
structure Frame where
  cols : List String
  rows : List (List String)

/-- `DataFrame.empty`. -/
def frameEmpty (f : Frame) : Bool :=
  f.cols.isEmpty || f.rows.isEmpty

/-- The column cleaning applied on load (database_connector.py lines 35–38):
`str(col).strip().replace(" ", "_").replace("Unnamed:", "col_").lower()`. -/
def cleanCol (s : String) : String :=
  pyLowerStr (pyReplace (pyReplace ⟨stripList s.data⟩ " " "_") "Unnamed:" "col_")

/-- The loaded dataframe after column cleaning. -/
def cleanFrame (f : Frame) : Frame :=
  ⟨f.cols.map cleanCol, f.rows⟩

/-- The externally visible side effects of `connect` / `close`. -/
inductive Ev where
  | readFile (path : String)
  | openHandle (h : Nat)
  | closeHandle (h : Nat)
deriving DecidableEq, Repr

/-- The environment: the file system and the availability of the two
servers (whether the driver's connect + liveness probe succeeds). -/
structure World where
  fs : String → Option Frame
  mysqlAvail : Bool
  mongoAvail : Bool

/-- The stored connection profile (`DatabaseConnection` model), restricted
to the fields `connect` reads.  Optional string fields model Python
truthiness: `none` and `some ""` are both falsy. -/
structure DBConnection where
  db_type : String
  host : Option String := none
  port : Option String := none
  database_name : Option String := none
  username : Option String := none
  password : Option String := none
  file_path : Option String := none

/-- Python truthiness of an optional string field. -/
def truthy : Option String → Bool
  | none => false
  | some s => !s.isEmpty

/-- The mutable attributes of a `DatabaseConnector` instance. -/
structure ConnectorState where
  connection : Option Nat := none
  dataframe : Option Frame := none
  db : Option String := none
  current_file_path : Option String := none

/-- What one call to `connect` produces: the new instance state, the next
fresh handle id, the `(success, message)` pair and the emitted events. -/
structure ConnectResult where
  st : ConnectorState
  fresh : Nat
  ok : Bool
  msg : String
  evs : List Ev

/-- `DatabaseConnector.connect` (database_connector.py lines 23–111).

* excel: require a truthy `file_path` and an existing file; re-read the
  file only when `current_file_path` differs from the profile's path
  (cleaning column labels on load); fail if the loaded dataframe is empty.
* mysql: require host, port, database name and username; on success the
  driver handle is assigned to `self.connection` (the previous value is
  overwritten, never closed); on driver failure nothing is assigned.
* mongodb: require host, port and database name; the client object is
  assigned to `self.connection` *before* the liveness probe, so even a
  failed probe leaves a fresh open client assigned; `self.db` is set only
  after the probe succeeds. -/
def connect (w : World) (c : DBConnection) (st : ConnectorState) (fresh : Nat) :
    ConnectResult :=
  if c.db_type = "excel" then
    if !truthy c.file_path then
      ⟨st, fresh, false, "Excel file path is required", []⟩
    else
      match c.file_path with
      | none => ⟨st, fresh, false, "Excel file path is required", []⟩
      | some p =>
        match w.fs p with
        | none => ⟨st, fresh, false, "Excel file not found at path: " ++ p, []⟩
        | some df =>
          let loaded :=
            if st.current_file_path = some p then (st, ([] : List Ev))
            else ({st with dataframe := some (cleanFrame df),
                           current_file_path := some p}, [Ev.readFile p])
          match loaded.1.dataframe with
          | none =>
              -- unreachable from states produced by this model
              -- (a missing dataframe alongside a matching cached path
              -- would be an `AttributeError` in the Python source)
              ⟨loaded.1, fresh, false, "No data available from Excel file", loaded.2⟩
          | some d =>
            if frameEmpty d then
              ⟨loaded.1, fresh, false, "Excel file is empty or contains no data", loaded.2⟩
            else
              ⟨loaded.1, fresh, true,
                "Excel file loaded successfully with " ++ toString d.cols.length
                  ++ " columns and " ++ toString d.rows.length ++ " rows", loaded.2⟩
  else if c.db_type = "mysql" then
    if !(truthy c.host && truthy c.port && truthy c.database_name
          && truthy c.username) then
      ⟨st, fresh, false, "Missing required connection parameters for MySQL", []⟩
    else if w.mysqlAvail then
      ⟨{st with connection := some fresh}, fresh + 1, true,
        "Connected to MySQL successfully", [Ev.openHandle fresh]⟩
    else
      ⟨st, fresh, false, "MySQL connection error", []⟩
  else if c.db_type = "mongodb" then
    if !(truthy c.host && truthy c.port && truthy c.database_name) then
      ⟨st, fresh, false, "Missing required connection parameters for MongoDB", []⟩
    else if w.mongoAvail then
      ⟨{st with connection := some fresh, db := c.database_name}, fresh + 1, true,
        "Connected to MongoDB successfully", [Ev.openHandle fresh]⟩
    else
      ⟨{st with connection := some fresh}, fresh + 1, false,
        "Cannot connect to MongoDB server", [Ev.openHandle fresh]⟩
  else
    ⟨st, fresh, false,
      "Unsupported database type: " ++ c.db_type
        ++ ". Supported types: excel, mysql, mongodb", []⟩

/-- `DatabaseConnector.close` (database_connector.py lines 317–324): close
the held handle for the server kinds (the attribute itself keeps pointing
at the closed handle) and clear the cached-path marker. -/
def close (c : DBConnection) (st : ConnectorState) : ConnectorState × List Ev :=
  let evs := match st.connection with
    | some h => if c.db_type = "mysql" ∨ c.db_type = "mongodb" then [Ev.closeHandle h] else []
    | none => []
  ({st with current_file_path := none}, evs)

/-- Number of `openHandle` events in a trace. -/
def countOpens (evs : List Ev) : Nat :=
  (evs.filter fun e => match e with | .openHandle _ => true | _ => false).length

/-- Number of `closeHandle` events in a trace. -/
def countCloses (evs : List Ev) : Nat :=
  (evs.filter fun e => match e with | .closeHandle _ => true | _ => false).length

/-- Number of `readFile` events in a trace. -/
def countReads (evs : List Ev) : Nat :=
  (evs.filter fun e => match e with | .readFile _ => true | _ => false).length

/-! ## `forgot_password` (`app/routes/auth.py` lines 141–159) -/

/-- The `forgot_password` endpoint, as a function of the registered email
addresses, the requested email and the token the `secrets` module would
generate: it returns the background email tasks it schedules (recipient,
reset token) and the JSON response message.  The return statement sits
outside the user-exists branch. -/
def forgot_password (registered : List String) (email : String) (tok : String) :
    List (String × String) × String :=
  ( if email ∈ registered then [(email, tok)] else []
  , "If the email exists, a password reset link has been sent")

/-! ## Concrete instances used to instantiate the connector theorems -/

/-- A sample environment: one spreadsheet on disk, both servers reachable. -/
def sampleWorld : World :=
  ⟨fun q => if q = "sales.xlsx"
      then some ⟨["Region", "Amount"], [["east", "100"], ["west", "70"]]⟩
      else none,
    true, true⟩

/-- The frame `sampleWorld` stores at `sales.xlsx`. -/
def sampleFrame : Frame := ⟨["Region", "Amount"], [["east", "100"], ["west", "70"]]⟩

/-- A file-backed connection profile. -/
def excelProfile : DBConnection := ⟨"excel", none, none, none, none, none, some "sales.xlsx"⟩

/-- An environment with no files and a reachable MySQL server. -/
def mysqlWorld : World := ⟨fun _ => none, true, true⟩

/-- A MySQL connection profile with all required parameters present. -/
def mysqlProfile : DBConnection :=
  ⟨"mysql", some "localhost", some "3306", some "shop", some "root", some "pw", none⟩

/-! ## General lemmas about the character and list helpers -/

theorem toNat_ofNat_valid {n : Nat} (h : n.isValidChar) : (Char.ofNat n).toNat = n := by
  simp [Char.ofNat, dif_pos h]
  rfl

theorem toNat_pyToLower (c : Char) :
    (pyToLower c).toNat = if 65 ≤ c.toNat ∧ c.toNat ≤ 90 then c.toNat + 32 else c.toNat := by
  unfold pyToLower
  by_cases h : 65 ≤ c.toNat ∧ c.toNat ≤ 90
  · rw [if_pos h, if_pos h]
    exact toNat_ofNat_valid (Or.inl (by omega))
  · rw [if_neg h, if_neg h]

theorem word_toLower_lower {c : Char} (h : isWordChar c = true) :
    isLowerWordChar (pyToLower c) = true := by
  have ht := toNat_pyToLower c
  simp only [isWordChar, Bool.or_eq_true, Bool.and_eq_true, decide_eq_true_eq,
    beq_iff_eq] at h
  simp only [isLowerWordChar, Bool.or_eq_true, Bool.and_eq_true, decide_eq_true_eq,
    beq_iff_eq]
  by_cases h2 : 65 ≤ c.toNat ∧ c.toNat ≤ 90
  · rw [if_pos h2] at ht
    omega
  · rw [if_neg h2] at ht
    omega

theorem lowerWord_not_space {c : Char} (h : isLowerWordChar c = true) :
    pyIsSpace c = false := by
  simp only [isLowerWordChar, Bool.or_eq_true, Bool.and_eq_true, decide_eq_true_eq,
    beq_iff_eq] at h
  simp only [pyIsSpace, Bool.or_eq_false_iff, beq_eq_false_iff_ne, ne_eq]
  omega

theorem lowerWord_isWord {c : Char} (h : isLowerWordChar c = true) :
    isWordChar c = true := by
  simp only [isLowerWordChar, Bool.or_eq_true, Bool.and_eq_true, decide_eq_true_eq,
    beq_iff_eq] at h
  simp only [isWordChar, Bool.or_eq_true, Bool.and_eq_true, decide_eq_true_eq, beq_iff_eq]
  omega

theorem lowerWord_toLower_self {c : Char} (h : isLowerWordChar c = true) :
    pyToLower c = c := by
  simp only [isLowerWordChar, Bool.or_eq_true, Bool.and_eq_true, decide_eq_true_eq,
    beq_iff_eq] at h
  unfold pyToLower
  rw [if_neg]
  omega

theorem toLower_not_digit {c : Char} (hd : pyIsDigit c = false) :
    pyIsDigit (pyToLower c) = false := by
  have ht := toNat_pyToLower c
  simp only [pyIsDigit, Bool.and_eq_false_iff, decide_eq_false_iff_not, not_le] at hd ⊢
  by_cases h2 : 65 ≤ c.toNat ∧ c.toNat ≤ 90
  · rw [if_pos h2] at ht
    omega
  · rw [if_neg h2] at ht
    omega

theorem subNonWord_all_word (l : List Char) : (subNonWord l).all isWordChar = true := by
  rw [subNonWord, List.all_map, List.all_eq_true]
  intro c _
  by_cases h : isWordChar c = true
  · simp [Function.comp, h]
  · simp [Function.comp, h]
    decide

theorem dropWhile_eq_self_of_all {p : Char → Bool} {l : List Char}
    (h : ∀ c ∈ l, p c = false) : l.dropWhile p = l := by
  cases l with
  | nil => rfl
  | cons c cs => rw [List.dropWhile_cons, if_neg (by simp [h c (by simp)])]

theorem stripList_eq_self {l : List Char} (h : ∀ c ∈ l, pyIsSpace c = false) :
    stripList l = l := by
  unfold stripList
  rw [dropWhile_eq_self_of_all h,
    dropWhile_eq_self_of_all (fun c hc => h c (List.mem_reverse.mp hc)),
    List.reverse_reverse]

theorem subNonWord_eq_self {l : List Char} (h : ∀ c ∈ l, isWordChar c = true) :
    subNonWord l = l := by
  unfold subNonWord
  rw [List.map_congr_left (fun c hc => by rw [if_pos (h c hc)])]
  exact List.map_id' l

theorem map_pyToLower_eq_self {l : List Char} (h : ∀ c ∈ l, isLowerWordChar c = true) :
    l.map pyToLower = l := by
  rw [List.map_congr_left (fun c hc => lowerWord_toLower_self (h c hc))]
  exact List.map_id' l

theorem stripList_eq_nil_iff (l : List Char) :
    stripList l = [] ↔ ∀ c ∈ l, pyIsSpace c = true := by
  unfold stripList
  rw [List.reverse_eq_nil_iff, List.dropWhile_eq_nil_iff]
  constructor
  · intro h c hc
    rw [← List.takeWhile_append_dropWhile pyIsSpace l] at hc
    rcases List.mem_append.mp hc with h1 | h2
    · exact List.mem_takeWhile_imp h1
    · exact h c (List.mem_reverse.mpr h2)
  · intro h c hc
    refine h c ?_
    rw [← List.takeWhile_append_dropWhile pyIsSpace l]
    exact List.mem_append.mpr (Or.inr (List.mem_reverse.mp hc))

/-! ## C1, C2 — what the live execute flow does with model-produced SQL -/

/-- C1.  The claim says a model-produced query that fails the read-only
validation (here `"DROP TABLE users"`, which does not start with `select`
and contains the forbidden keyword `drop`) is rejected before
`execute_query` is ever invoked with it.  In the code as written the
validation block is commented out, so the live route hands exactly this
text to `connector.execute_query`: the claim's required rejection does not
happen.  This theorem evaluates the embedded route flow and the (dead)
validators at that failing input. -/
theorem route_executes_forbidden_sql :
    routeExecutedQueries ⟨"", "table", some "DROP TABLE users"⟩ = ["DROP TABLE users"]
    ∧ is_select_only "DROP TABLE users" = false
    ∧ contains_forbidden "DROP TABLE users" = true :=
  ⟨rfl, by decide, by decide⟩

/-- C2.  The claim says a model-produced query referencing a table outside
the fetched schema is replaced by the fallback query instead of being
executed.  The substitution (`allowed_tables_check` plus fallback) is
commented out in the live route, which executes the out-of-scope text
verbatim.  Here the schema knows only the table `data`, the model's query
references `secret_stuff`, `allowed_tables_check` would have flagged it —
and the route passes it to `execute_query` anyway. -/
theorem route_executes_unknown_table_sql :
    routeExecutedQueries ⟨"", "table", some "select * from secret_stuff"⟩
      = ["select * from secret_stuff"]
    ∧ extract_tables "select * from secret_stuff" = ["secret_stuff"]
    ∧ allowed_tables_check "select * from secret_stuff" ["data"] = false :=
  ⟨rfl, by decide, by decide⟩

/-! ## C3 — normalize_type -/

/-- C3.  `normalize_type` maps a native type string by case-insensitive
substring matching with first match in this order winning: `int` →
INTEGER, then `float`/`double`/`numeric`/`real` → FLOAT, then
`date`/`time` → DATE, then `bool` → BOOLEAN, else TEXT. -/
theorem normalize_type_spec (s : String) :
    (containsSub "int".data (s.data.map pyToLower) = true →
      normalize_type s = "INTEGER") ∧
    (containsSub "int".data (s.data.map pyToLower) = false →
      (containsSub "float".data (s.data.map pyToLower)
        || containsSub "double".data (s.data.map pyToLower)
        || containsSub "numeric".data (s.data.map pyToLower)
        || containsSub "real".data (s.data.map pyToLower)) = true →
      normalize_type s = "FLOAT") ∧
    (containsSub "int".data (s.data.map pyToLower) = false →
      (containsSub "float".data (s.data.map pyToLower)
        || containsSub "double".data (s.data.map pyToLower)
        || containsSub "numeric".data (s.data.map pyToLower)
        || containsSub "real".data (s.data.map pyToLower)) = false →
      (containsSub "date".data (s.data.map pyToLower)
        || containsSub "time".data (s.data.map pyToLower)) = true →
      normalize_type s = "DATE") ∧
    (containsSub "int".data (s.data.map pyToLower) = false →
      (containsSub "float".data (s.data.map pyToLower)
        || containsSub "double".data (s.data.map pyToLower)
        || containsSub "numeric".data (s.data.map pyToLower)
        || containsSub "real".data (s.data.map pyToLower)) = false →
      (containsSub "date".data (s.data.map pyToLower)
        || containsSub "time".data (s.data.map pyToLower)) = false →
      containsSub "bool".data (s.data.map pyToLower) = true →
      normalize_type s = "BOOLEAN") ∧
    (containsSub "int".data (s.data.map pyToLower) = false →
      (containsSub "float".data (s.data.map pyToLower)
        || containsSub "double".data (s.data.map pyToLower)
        || containsSub "numeric".data (s.data.map pyToLower)
        || containsSub "real".data (s.data.map pyToLower)) = false →
      (containsSub "date".data (s.data.map pyToLower)
        || containsSub "time".data (s.data.map pyToLower)) = false →
      containsSub "bool".data (s.data.map pyToLower) = false →
      normalize_type s = "TEXT") := by
  refine ⟨fun h1 => ?_, fun h1 h2 => ?_, fun h1 h2 h3 => ?_,
    fun h1 h2 h3 h4 => ?_, fun h1 h2 h3 h4 => ?_⟩ <;>
    simp_all [normalize_type]

/-- Witness for C3 at the tie-break input `"int_date"`, which contains both
`int` and `date` and resolves to INTEGER by first-match order. -/
theorem normalize_type_spec_witness :
    containsSub "int".data ("int_date".data.map pyToLower) = true ∧
    containsSub "date".data ("int_date".data.map pyToLower) = true ∧
    normalize_type "int_date" = "INTEGER" :=
  ⟨by decide, by decide, (normalize_type_spec "int_date").1 (by decide)⟩

/-! ## C4, C10 — normalize_column_name -/

/-- C4, counterexample.  The claim quantifies over all raw column names,
but on a whitespace-only name `normalize_column_name` produces no output
at all: the stripped name is empty and `safe[0]` raises `IndexError`
(modelled by `none`), so there is no output matching `^[a-z0-9_]+$` and
nothing on which to iterate the transform. -/
theorem normalize_column_name_whitespace_raises :
    normalize_column_name " " = none ∧ normalize_column_name "" = none := by
  decide

/-- C4, amended.  For every raw column name on which
`normalize_column_name` returns normally (equivalently, whose stripped
form is nonempty), the output matches `^[a-z0-9_]+$` and the transform is
idempotent on its own output. -/
theorem normalize_column_name_output (s r : String)
    (h : normalize_column_name s = some r) :
    matchesColPattern r = true ∧ normalize_column_name r = some r := by
  unfold normalize_column_name at h
  cases hm : subNonWord (stripList s.data) with
  | nil => rw [hm] at h; exact absurd h (by simp)
  | cons c cs =>
    rw [hm] at h
    simp only [Option.some_inj] at h
    -- every character produced by the regex substitution is a word character
    have hall : ∀ x ∈ c :: cs, isWordChar x = true := by
      have := subNonWord_all_word (stripList s.data)
      rw [hm, List.all_eq_true] at this
      exact this
    -- the base list before lower-casing
    set base := (if pyIsDigit c then "col_".data ++ (c :: cs) else c :: cs) with hbase
    have hbase_word : ∀ x ∈ base, isWordChar x = true := by
      rw [hbase]
      by_cases hd : pyIsDigit c = true
      · rw [if_pos hd]
        intro x hx
        rcases List.mem_append.mp hx with hx | hx
        · fin_cases hx <;> decide
        · exact hall x hx
      · rw [if_neg hd]
        exact hall
    have hbase_ne : base ≠ [] := by
      rw [hbase]
      by_cases hd : pyIsDigit c = true <;> simp [hd]
    have hout_lower : ∀ x ∈ base.map pyToLower, isLowerWordChar x = true := by
      intro x hx
      rcases List.mem_map.mp hx with ⟨y, hy, rfl⟩
      exact word_toLower_lower (hbase_word y hy)
    have hout_ne : base.map pyToLower ≠ [] := by
      simpa using hbase_ne
    -- the first character of the output is never a digit
    have hhead : ∀ z zs, base.map pyToLower = z :: zs → pyIsDigit z = false := by
      intro z zs hz
      rw [hbase] at hz
      by_cases hd : pyIsDigit c = true
      · rw [if_pos hd] at hz
        have : z = pyToLower 'c' := by
          simpa using congrArg (fun l => l.headD 'x') hz.symm
        rw [this]
        decide
      · rw [if_neg hd] at hz
        have : z = pyToLower c := by
          simpa using congrArg (fun l => l.headD 'x') hz.symm
        rw [this]
        exact toLower_not_digit (by simpa using hd)
    subst h
    constructor
    · -- the output matches the pattern
      simp only [matchesColPattern, Bool.and_eq_true, Bool.not_eq_true']
      exact ⟨by simpa [List.isEmpty_iff] using hout_ne,
        List.all_eq_true.mpr hout_lower⟩
    · -- idempotence on the output
      unfold normalize_column_name
      have h1 : stripList (base.map pyToLower) = base.map pyToLower :=
        stripList_eq_self (fun x hx => lowerWord_not_space (hout_lower x hx))
      have h2 : subNonWord (base.map pyToLower) = base.map pyToLower :=
        subNonWord_eq_self (fun x hx => lowerWord_isWord (hout_lower x hx))
      have hdata : (String.mk (base.map pyToLower)).data = base.map pyToLower := rfl
      rw [hdata, h1, h2]
      cases hz : base.map pyToLower with
      | nil => exact absurd hz hout_ne
      | cons z zs =>
        show some (String.mk ((if pyIsDigit z then "col_".data ++ (z :: zs)
            else z :: zs).map pyToLower)) = some (String.mk (z :: zs))
        rw [if_neg (by simp [hhead z zs hz])]
        have hlow : (z :: zs).map pyToLower = z :: zs := by
          rw [← hz]
          exact map_pyToLower_eq_self hout_lower
        rw [hlow]

/-- Witness for the amended C4: the raw name `"2023 Sales!"` normalizes to
`col_2023_sales_`, which matches the pattern and is a fixed point. -/
theorem normalize_column_name_output_witness :
    normalize_column_name "2023 Sales!" = some "col_2023_sales_" ∧
    (matchesColPattern "col_2023_sales_" = true ∧
      normalize_column_name "col_2023_sales_" = some "col_2023_sales_") :=
  ⟨by decide, normalize_column_name_output "2023 Sales!" "col_2023_sales_" (by decide)⟩

/-- C10.  `normalize_column_name` fails to return (raises `IndexError`,
modelled by `none`) exactly on the names whose characters are all
whitespace — the empty and whitespace-only names; every other name
produces a value. -/
theorem normalize_column_name_none_iff (s : String) :
    normalize_column_name s = none ↔ s.data.all pyIsSpace = true := by
  rw [List.all_eq_true, ← stripList_eq_nil_iff]
  unfold normalize_column_name
  cases hm : subNonWord (stripList s.data) with
  | nil =>
    have h0 : stripList s.data = [] := by
      unfold subNonWord at hm
      exact List.map_eq_nil_iff.mp hm
    simp [h0]
  | cons c cs =>
    have h0 : stripList s.data ≠ [] := by
      intro h
      rw [h] at hm
      simp [subNonWord] at hm
    simp [h0]

/-- Witness for C10: a whitespace-only name raises; a name with one
non-whitespace character returns normally. -/
theorem normalize_column_name_none_iff_witness :
    normalize_column_name "   " = none ∧ normalize_column_name " a " ≠ none :=
  ⟨(normalize_column_name_none_iff "   ").mpr (by decide),
   fun h => by
     have := (normalize_column_name_none_iff " a ").mp h
     exact absurd this (by decide)⟩

/-! ## C5 — the result sanitizers -/

theorem clean_json_idem_strong :
    ∀ n : Nat,
      (∀ v : PyVal, sizeOf v ≤ n → clean_json (clean_json v) = clean_json v) ∧
      (∀ l : List PyVal, sizeOf l ≤ n → cleanList (cleanList l) = cleanList l) ∧
      (∀ d : List (String × PyVal), sizeOf d ≤ n →
        cleanDict (cleanDict d) = cleanDict d) := by
  intro n
  induction n with
  | zero =>
      refine ⟨fun v hv => ?_, fun l hl => ?_, fun d hd => ?_⟩
      · cases v <;> simp_arith at hv
      · cases l <;> simp_arith at hl
      · cases d <;> simp_arith at hd
  | succ n ih =>
      obtain ⟨ihv, ihl, ihd⟩ := ih
      refine ⟨fun v hv => ?_, fun l hl => ?_, fun d hd => ?_⟩
      · cases v with
        | dict d =>
            have hd : sizeOf d ≤ n := by simp_arith at hv; omega
            simp [clean_json, ihd d hd]
        | list l =>
            have hl : sizeOf l ≤ n := by simp_arith at hv; omega
            simp [clean_json, ihl l hl]
        | float f =>
            by_cases h : pyFloatNonFinite f = true <;> simp [clean_json, h]
        | none => simp [clean_json]
        | bool b => simp [clean_json]
        | int m => simp [clean_json]
        | str s => simp [clean_json]
      · cases l with
        | nil => simp [cleanList]
        | cons v vs =>
            have h1 : sizeOf v ≤ n := by simp_arith at hl; omega
            have h2 : sizeOf vs ≤ n := by simp_arith at hl; omega
            simp [cleanList, ihv v h1, ihl vs h2]
      · cases d with
        | nil => simp [cleanDict]
        | cons kv rest =>
            obtain ⟨k, v⟩ := kv
            have h1 : sizeOf v ≤ n := by simp_arith at hd; omega
            have h2 : sizeOf rest ≤ n := by simp_arith at hd; omega
            simp [cleanDict, ihv v h1, ihd rest h2]

theorem cleanDict_nonfinite (r : List (String × PyVal)) (k : String) (f : PyFloat)
    (hf : pyFloatNonFinite f = true) :
    (k, PyVal.float f) ∈ r → (k, PyVal.none) ∈ cleanDict r := by
  induction r with
  | nil => intro h; simp at h
  | cons hd tl ih =>
      obtain ⟨k', v'⟩ := hd
      intro hmem
      rcases List.mem_cons.mp hmem with heq | htl
      · injection heq with hk hv
        subst hk
        rw [cleanDict, ← hv]
        simp [clean_json, hf]
      · rw [cleanDict]
        exact List.mem_cons_of_mem _ (ih htl)

theorem clean_rows_nonfinite (d : List (String × PyVal)) (k : String) (f : PyFloat)
    (hf : pyFloatNonFinite f = true) (hmem : (k, PyVal.float f) ∈ d) :
    clean_rows [PyVal.dict d] = [PyVal.dict (d.map fun (k, v) => (k, clean_val v))] ∧
    (k, PyVal.none) ∈ d.map fun (k, v) => (k, clean_val v) := by
  constructor
  · rfl
  · refine List.mem_map.mpr ⟨(k, PyVal.float f), hmem, ?_⟩
    simp [clean_val, hf]

/-- C5.  The result sanitizer `clean_json` is idempotent on every nested
structure of dicts, lists and scalars, and both sanitizers turn a NaN or
±infinity float found in a row into `None` at that position: `clean_json`
for values anywhere in a dict row, `clean_rows` for the top-level values
of a dict row. -/
theorem result_sanitizer_spec :
    (∀ v : PyVal, clean_json (clean_json v) = clean_json v) ∧
    (∀ (r : List (String × PyVal)) (k : String) (f : PyFloat),
      pyFloatNonFinite f = true → (k, PyVal.float f) ∈ r →
      (k, PyVal.none) ∈ cleanDict r) ∧
    (∀ (d : List (String × PyVal)) (k : String) (f : PyFloat),
      pyFloatNonFinite f = true → (k, PyVal.float f) ∈ d →
      clean_rows [PyVal.dict d] = [PyVal.dict (d.map fun (k, v) => (k, clean_val v))] ∧
      (k, PyVal.none) ∈ d.map fun (k, v) => (k, clean_val v)) :=
  ⟨fun v => (clean_json_idem_strong (sizeOf v)).1 v le_rfl,
   fun r k f hf hm => cleanDict_nonfinite r k f hf hm,
   fun d k f hf hm => clean_rows_nonfinite d k f hf hm⟩

/-- Witness for C5 on a concrete nested payload holding a NaN and an
infinity. -/
theorem result_sanitizer_spec_witness :
    clean_json (clean_json (PyVal.dict [("a", PyVal.float PyFloat.nan),
        ("b", PyVal.list [PyVal.float PyFloat.inf, PyVal.int 3])]))
      = clean_json (PyVal.dict [("a", PyVal.float PyFloat.nan),
        ("b", PyVal.list [PyVal.float PyFloat.inf, PyVal.int 3])]) ∧
    pyFloatNonFinite PyFloat.nan = true ∧
    ("a", PyVal.none) ∈ cleanDict [("a", PyVal.float PyFloat.nan)] ∧
    ("a", PyVal.none) ∈ ([("a", PyVal.float PyFloat.nan)].map
        fun (k, v) => (k, clean_val v)) :=
  ⟨result_sanitizer_spec.1 _, rfl,
   result_sanitizer_spec.2.1 _ "a" PyFloat.nan rfl (by simp),
   (result_sanitizer_spec.2.2 [("a", PyVal.float PyFloat.nan)] "a" PyFloat.nan rfl
      (by simp)).2⟩

/-! ## C6, C7 — the connect state machine -/

/-- C6.  Connecting the file connector twice in sequence to the same
existing, non-empty spreadsheet reads the file exactly once: the first
call emits one read event and succeeds, the second finds the cached-path
marker, emits no read, leaves the instance state unchanged and succeeds. -/
theorem connect_excel_single_read (w : World) (p : String) (df : Frame)
    (hp : p ≠ "") (hfs : w.fs p = some df)
    (hcols : df.cols ≠ []) (hrows : df.rows ≠ []) :
    (connect w ⟨"excel", none, none, none, none, none, some p⟩ {} 0).ok = true ∧
    countReads (connect w ⟨"excel", none, none, none, none, none, some p⟩ {} 0).evs = 1 ∧
    (connect w ⟨"excel", none, none, none, none, none, some p⟩
        (connect w ⟨"excel", none, none, none, none, none, some p⟩ {} 0).st 0).ok = true ∧
    countReads (connect w ⟨"excel", none, none, none, none, none, some p⟩
        (connect w ⟨"excel", none, none, none, none, none, some p⟩ {} 0).st 0).evs = 0 ∧
    (connect w ⟨"excel", none, none, none, none, none, some p⟩
        (connect w ⟨"excel", none, none, none, none, none, some p⟩ {} 0).st 0).st
      = (connect w ⟨"excel", none, none, none, none, none, some p⟩ {} 0).st := by
  have hpe : p.isEmpty = false := by
    rw [← Bool.not_eq_true, String.isEmpty_iff]
    exact hp
  have hne : frameEmpty (cleanFrame df) = false := by
    simp only [frameEmpty, cleanFrame, Bool.or_eq_false_iff]
    constructor
    · simp [List.isEmpty_iff, hcols]
    · simp [List.isEmpty_iff, hrows]
  have h1 : connect w ⟨"excel", none, none, none, none, none, some p⟩ {} 0
      = ⟨⟨none, some (cleanFrame df), none, some p⟩, 0, true,
          "Excel file loaded successfully with "
            ++ toString (cleanFrame df).cols.length
            ++ " columns and " ++ toString (cleanFrame df).rows.length ++ " rows",
          [Ev.readFile p]⟩ := by
    simp [connect, truthy, hpe, hfs, hne]
  rw [h1]
  have h2 : connect w ⟨"excel", none, none, none, none, none, some p⟩
      ⟨none, some (cleanFrame df), none, some p⟩ 0
      = ⟨⟨none, some (cleanFrame df), none, some p⟩, 0, true,
          "Excel file loaded successfully with "
            ++ toString (cleanFrame df).cols.length
            ++ " columns and " ++ toString (cleanFrame df).rows.length ++ " rows",
          []⟩ := by
    simp [connect, truthy, hpe, hfs, hne]
  rw [h2]
  exact ⟨rfl, rfl, rfl, rfl, rfl⟩

/-- Witness for C6 in the sample world. -/
theorem connect_excel_single_read_witness :
    (connect sampleWorld excelProfile {} 0).ok = true ∧
    countReads (connect sampleWorld excelProfile {} 0).evs = 1 ∧
    (connect sampleWorld excelProfile
        (connect sampleWorld excelProfile {} 0).st 0).ok = true ∧
    countReads (connect sampleWorld excelProfile
        (connect sampleWorld excelProfile {} 0).st 0).evs = 0 ∧
    (connect sampleWorld excelProfile
        (connect sampleWorld excelProfile {} 0).st 0).st
      = (connect sampleWorld excelProfile {} 0).st :=
  connect_excel_single_read sampleWorld "sales.xlsx" sampleFrame
    (by decide) rfl (by decide) (by decide)

/-- C7, counterexample.  Two sequential `connect` calls on a MySQL profile
(no intervening `close`) open two distinct backend handles and close none:
after the second call the first handle is still open but no longer
referenced, so the connector did not reuse or cleanly replace its handle
and more than one handle is open at once. -/
theorem connect_twice_leaks_handles :
    countOpens ((connect mysqlWorld mysqlProfile {} 0).evs
        ++ (connect mysqlWorld mysqlProfile
              (connect mysqlWorld mysqlProfile {} 0).st
              (connect mysqlWorld mysqlProfile {} 0).fresh).evs) = 2 ∧
    countCloses ((connect mysqlWorld mysqlProfile {} 0).evs
        ++ (connect mysqlWorld mysqlProfile
              (connect mysqlWorld mysqlProfile {} 0).st
              (connect mysqlWorld mysqlProfile {} 0).fresh).evs) = 0 ∧
    (connect mysqlWorld mysqlProfile {} 0).st.connection = some 0 ∧
    (connect mysqlWorld mysqlProfile
        (connect mysqlWorld mysqlProfile {} 0).st
        (connect mysqlWorld mysqlProfile {} 0).fresh).st.connection = some 1 := by
  decide

/-- C7, amended.  `connect` never closes anything: no call emits a close
event; a file-connector call opens no backend handle at all; and a
successful MySQL call always opens a brand-new handle and overwrites the
`connection` attribute with it, regardless of the handle previously held —
so repeated `connect` on the server kinds accumulates open handles instead
of reusing or cleanly replacing the old one. -/
theorem connect_never_closes (w : World) (c : DBConnection) (st : ConnectorState)
    (fresh : Nat) :
    countCloses (connect w c st fresh).evs = 0 ∧
    (c.db_type = "excel" → countOpens (connect w c st fresh).evs = 0) ∧
    (c.db_type = "mysql" →
      (truthy c.host && truthy c.port && truthy c.database_name
        && truthy c.username) = true →
      w.mysqlAvail = true →
      (connect w c st fresh).st.connection = some fresh ∧
      (connect w c st fresh).evs = [Ev.openHandle fresh]) := by
  obtain ⟨conn, dfr, db0, cfp⟩ := st
  refine ⟨?_, ?_, ?_⟩
  · unfold connect
    repeat' split
    all_goals (try cases dfr)
    all_goals dsimp only
    all_goals (try split_ifs)
    all_goals simp [countCloses]
  · intro h1
    simp only [connect, h1, if_true, reduceIte]
    repeat' split
    all_goals (try cases dfr)
    all_goals dsimp only
    all_goals simp [countOpens]
  · intro h1 h2 h3
    simp [connect, h1, h2, h3]

/-- Witness for the amended C7: one successful MySQL connect from the
initial state emits no close, opens handle 0 and stores it. -/
theorem connect_never_closes_witness :
    countCloses (connect mysqlWorld mysqlProfile {} 0).evs = 0 ∧
    (connect mysqlWorld mysqlProfile {} 0).st.connection = some 0 ∧
    (connect mysqlWorld mysqlProfile {} 0).evs = [Ev.openHandle 0] :=
  ⟨(connect_never_closes mysqlWorld mysqlProfile {} 0).1,
   ((connect_never_closes mysqlWorld mysqlProfile {} 0).2.2 rfl (by decide) rfl).1,
   ((connect_never_closes mysqlWorld mysqlProfile {} 0).2.2 rfl (by decide) rfl).2⟩

/-! ## C8 — enforce_limit -/

theorem findWordCIAux_append (pat ys : List Char)
    (hys : ∀ p, findWordCIAux pat p ys = true) :
    ∀ (xs : List Char) (q : Option Char), findWordCIAux pat q (xs ++ ys) = true := by
  intro xs
  induction xs with
  | nil => intro q; simpa using hys q
  | cons x xs ih =>
    intro q
    have h := ih (some x)
    simp [findWordCIAux, h]

theorem limit_suffix_hit :
    ∀ p : Option Char, findWordCIAux "limit".data p (" LIMIT 1000".data) = true := by
  intro p
  show findWordCIAux "limit".data p (' ' :: "LIMIT 1000".data) = true
  have hm : matchWordCI "limit".data (' ' :: "LIMIT 1000".data) = false := by decide
  simp only [findWordCIAux, hm, Bool.and_false, Bool.false_or]
  decide

/-- C8.  A query that already carries a `limit` token (the regex
`\blimit\b`, case-insensitive) passes through `enforce_limit` unchanged;
a query without one comes back as its right-stripped text with
` LIMIT 1000` appended — in particular the result then contains a limit
token. -/
theorem enforce_limit_spec (sql : String) :
    (containsWordCI "limit" sql = true → enforce_limit sql 1000 = sql) ∧
    (containsWordCI "limit" sql = false →
      enforce_limit sql 1000 = String.mk (rstripList sql.data ++ " LIMIT 1000".data) ∧
      containsWordCI "limit" (enforce_limit sql 1000) = true) := by
  constructor
  · intro h
    simp [enforce_limit, h]
  · intro h
    have happ : (" LIMIT " ++ toString 1000).data = " LIMIT 1000".data := by decide
    have he : enforce_limit sql 1000
        = String.mk (rstripList sql.data ++ " LIMIT 1000".data) := by
      simp [enforce_limit, h, happ]
    refine ⟨he, ?_⟩
    rw [he]
    show findWordCIAux "limit".data none (rstripList sql.data ++ " LIMIT 1000".data) = true
    exact findWordCIAux_append _ _ limit_suffix_hit _ _

/-- Witness for C8: one query without a limit token gets ` LIMIT 1000`
appended after right-stripping; one query with a limit token is returned
unchanged. -/
theorem enforce_limit_spec_witness :
    containsWordCI "limit" "select * from t  " = false ∧
    (enforce_limit "select * from t  " 1000
        = String.mk (rstripList "select * from t  ".data ++ " LIMIT 1000".data) ∧
      containsWordCI "limit" (enforce_limit "select * from t  " 1000) = true) ∧
    enforce_limit "select * from t  " 1000 = "select * from t LIMIT 1000" ∧
    containsWordCI "limit" "select x from t limit 5" = true ∧
    enforce_limit "select x from t limit 5" 1000 = "select x from t limit 5" :=
  ⟨by decide, (enforce_limit_spec "select * from t  ").2 (by decide), by decide, by decide,
    (enforce_limit_spec "select x from t limit 5").1 (by decide)⟩

/-! ## C9 — forgot_password -/

/-- C9.  For a request whose email is registered and one whose email is
not, `forgot_password` returns the identical generic message (the literal
returned outside the user-exists branch), so the response body does not
reveal whether the account exists. -/
theorem forgot_password_no_enumeration (db : List String) (e1 e2 t1 t2 : String)
    (_h1 : e1 ∈ db) (_h2 : e2 ∉ db) :
    (forgot_password db e1 t1).2 = (forgot_password db e2 t2).2 ∧
    (forgot_password db e1 t1).2
      = "If the email exists, a password reset link has been sent" :=
  ⟨rfl, rfl⟩

/-- Witness for C9 with one registered and one unknown address. -/
theorem forgot_password_no_enumeration_witness :
    ("alice@example.com" ∈ ["alice@example.com"]) ∧
    ("bob@example.com" ∉ ["alice@example.com"]) ∧
    ((forgot_password ["alice@example.com"] "alice@example.com" "tok1").2
        = (forgot_password ["alice@example.com"] "bob@example.com" "tok2").2 ∧
      (forgot_password ["alice@example.com"] "alice@example.com" "tok1").2
        = "If the email exists, a password reset link has been sent") :=
  ⟨by decide, by decide,
    forgot_password_no_enumeration ["alice@example.com"] "alice@example.com"
      "bob@example.com" "tok1" "tok2" (by decide) (by decide)⟩
